import Mathlib

/-!
Verification of the GPU Identity & Capacity Planning Engine of the
Sakura launcher repository.

The Python source (`src/gpu.py`, `src/sakura.py`) is shallowly embedded:

* Python strings are `List Char` (abbreviated `Str`);
* Python `int` is `ℤ` (sizes in bytes are `ℕ`), Python floats carrying
  GiB figures are modelled as exact rationals `ℚ`;
* Python dicts with insertion order are association lists;
* code that may raise an uncaught exception returns `Except Unit _`,
  while caught exceptions are modelled by the explicit fallback value;
* the external model-memory calculator (`utils/model_size_cauculator`,
  consumed as a black box, spec section 6) is a parameter
  `calc : ℕ → Except Unit ℚ` mapping a context length to the computed
  `total_size_gib`, or to an error when the calculator fails;
* user-facing reason strings are represented structurally by
  `AbilityReason`, keeping exactly the numeric figures that the Python
  format strings interpolate.
-/

namespace Launcher

/-- Python strings are modelled as lists of characters. -/
abbrev Str := List Char

/-! ### Python primitives: int(), int(_, 16), str(), strip, split -/

/-- Value of a decimal digit character, `none` for any other character. -/
def digitVal (c : Char) : Option ℕ :=
  if '0' ≤ c ∧ c ≤ '9' then some (c.toNat - 48) else none

/-- Value of a hexadecimal digit character, `none` otherwise. -/
def hexVal (c : Char) : Option ℕ :=
  if '0' ≤ c ∧ c ≤ '9' then some (c.toNat - 48)
  else if 'a' ≤ c ∧ c ≤ 'f' then some (c.toNat - 87)
  else if 'A' ≤ c ∧ c ≤ 'F' then some (c.toNat - 55)
  else none

/-- Fold a run of decimal digits into a number; fails on a non-digit. -/
def parseDigitsAux : Str → ℕ → Option ℕ
  | [], acc => some acc
  | c :: cs, acc =>
    match digitVal c with
    | some d => parseDigitsAux cs (10 * acc + d)
    | none => none

/-- A non-empty all-decimal-digit string parsed as a number. -/
def parseDigits (l : Str) : Option ℕ :=
  if l = [] then none else parseDigitsAux l 0

/-- Fold a run of hexadecimal digits into a number; fails on a non-digit. -/
def parseHexAux : Str → ℕ → Option ℕ
  | [], acc => some acc
  | c :: cs, acc =>
    match hexVal c with
    | some d => parseHexAux cs (16 * acc + d)
    | none => none

/-- A non-empty all-hex-digit string parsed as a number. -/
def parseHexDigits (l : Str) : Option ℕ :=
  if l = [] then none else parseHexAux l 0

/-- Python `str.strip()`: remove leading and trailing whitespace. -/
def stripSpaces (l : Str) : Str :=
  ((l.dropWhile Char.isWhitespace).reverse.dropWhile Char.isWhitespace).reverse

/-- The optional `0x` / `0X` marker accepted by Python `int(_, 16)`. -/
def dropHexMark : Str → Str
  | '0' :: 'x' :: rest => rest
  | '0' :: 'X' :: rest => rest
  | l => l

/-- Python `int(s)`: optional surrounding whitespace, optional sign, then
decimal digits.  `none` models a raised `ValueError`.  (Underscore digit
separators, a Python nicety irrelevant to every input considered here,
are not modelled.) -/
def pyInt (s : Str) : Option ℤ :=
  let t := stripSpaces s
  match t with
  | [] => none
  | c :: rest =>
    if c = '-' then (parseDigits rest).map (fun n => -(n : ℤ))
    else if c = '+' then (parseDigits rest).map (fun n => (n : ℤ))
    else (parseDigits t).map (fun n => (n : ℤ))

/-- Python `int(s, 16)`: optional whitespace, optional sign, optional
`0x` marker, then hex digits.  `none` models a raised `ValueError`. -/
def pyIntHex (s : Str) : Option ℤ :=
  let t := stripSpaces s
  match t with
  | [] => none
  | c :: rest =>
    if c = '-' then (parseHexDigits (dropHexMark rest)).map (fun n => -(n : ℤ))
    else if c = '+' then (parseHexDigits (dropHexMark rest)).map (fun n => (n : ℤ))
    else (parseHexDigits (dropHexMark t)).map (fun n => (n : ℤ))

/-- Big-endian decimal digits of `n`; the fuel argument (any bound `≥ n`)
makes the recursion structural. -/
def natReprAux : ℕ → ℕ → Str
  | 0, _ => []
  | _ + 1, 0 => []
  | fuel + 1, n + 1 => natReprAux fuel ((n + 1) / 10) ++ [Nat.digitChar ((n + 1) % 10)]

/-- Python `str(n)` for a non-negative integer. -/
def natRepr (n : ℕ) : Str :=
  if n = 0 then ['0'] else natReprAux n n

/-- Python `str(z)` for an integer. -/
def intRepr (z : ℤ) : Str :=
  if z < 0 then '-' :: natRepr z.natAbs else natRepr z.natAbs

/-- Python `s.rstrip(")")`: remove every trailing `')'`. -/
def rstripParen (l : Str) : Str :=
  (l.reverse.dropWhile (fun c => c = ')')).reverse

/-- Python `sub in s` (substring containment). -/
def containsSub (s pat : Str) : Bool :=
  s.tails.any (fun t => pat.isPrefixOf t)

/-- Python `c in s` for a single character. -/
def containsChar (s : Str) (c : Char) : Bool :=
  s.any (fun x => x = c)

/-- Python `s.split(sep)` for a single-character separator. -/
def splitChar (sep : Char) : Str → List Str
  | [] => [[]]
  | c :: cs =>
    if c = sep then [] :: splitChar sep cs
    else
      match splitChar sep cs with
      | [] => [[c]]
      | h :: t => (c :: h) :: t

/-- The display-label separator `" (GPU "` used by `GPUDisplayHelper`. -/
def gpuSep : Str := [' ', '(', 'G', 'P', 'U', ' ']

/-- Python `s.split(" (GPU ")`, specialised to the six-character
separator `gpuSep`; the fuel argument (any bound `≥ s.length`) makes the
recursion structural. -/
def splitGPUAux : ℕ → Str → List Str
  | 0, l => [l]
  | _ + 1, [] => [[]]
  | fuel + 1, c :: cs =>
    if gpuSep.isPrefixOf (c :: cs) then
      [] :: splitGPUAux fuel ((c :: cs).drop 6)
    else
      match splitGPUAux fuel cs with
      | [] => [[c]]
      | h :: t => (c :: h) :: t

/-- Python `s.split(" (GPU ")`. -/
def splitGPU (l : Str) : List Str :=
  splitGPUAux l.length l

/-- Python list indexing `l[i]`, which accepts negative indices counting
from the end and raises `IndexError` when out of range. -/
def pyListGet {α : Type} (l : List α) (i : ℤ) : Except Unit α :=
  let j : ℤ := if i < 0 then i + l.length else i
  if h : 0 ≤ j ∧ j.toNat < l.length then .ok (l.get ⟨j.toNat, h.2⟩) else .error ()

/-! ### Data model (spec section 3) -/

/-- `GPUType` from `utils/gpu`.  Modelled from the spec: the vendor
enumeration `{NVIDIA, AMD, INTEL, UNKNOWN}` (spec section 3, Device),
whose defining module is not part of the provided sources. -/
inductive GPUType where
  | NVIDIA
  | AMD
  | INTEL
  | UNKNOWN
deriving DecidableEq

/-- The figures interpolated into the user-facing reason strings of
`GPUAbility`.  Each constructor corresponds to one format string of
`gpu.py`, carrying exactly the GiB figures that string cites. -/
inductive AbilityReason where
  /-- Empty reason (capable). -/
  | empty
  /-- 未找到显卡对应的参数信息 (device not found). -/
  | notFound
  /-- 目前只支持 NVIDIA 和 AMD 的显卡 (unsupported vendor). -/
  | unsupportedVendor
  /-- Dynamic-mode failure: required, available and total GiB. -/
  | dynamicInsufficient (required avail total : ℚ)
  /-- Dynamic-mode calculator-failure fallback: minimum and available GiB. -/
  | fallbackInsufficient (required avail : ℚ)
  /-- Static-mode failure: minimum and (possibly rounded) total GiB. -/
  | staticInsufficient (required actual : ℚ)
deriving DecidableEq

/-- `GPUAbility` from `utils/gpu`.  Modelled from the spec: the verdict
record `{isCapable, reason}` (spec section 3, Ability). -/
structure GPUAbility where
  is_capable : Bool
  reason : AbilityReason
deriving DecidableEq

/-- `GPUInfo` from `utils/gpu`.  Modelled from the spec: the canonical
Device record (spec section 3) with the fields `gpu.py` reads. -/
structure GPUInfo where
  name : Str
  gpu_type : GPUType
  dedicated_gpu_memory : ℕ
  avail_dedicated_gpu_memory : Option ℕ
  pci_bus_id : Option Str
  ability : Option GPUAbility
deriving DecidableEq

/-- A `Sakura` model entry (`sakura.py`).  The fields that only feed the
external memory calculator (`base_model_hf`, `bpw`, `config_cache`,
download links) are absorbed into the abstract calculator parameter. -/
structure Sakura where
  repo : Str
  filename : Str
  sha256 : Str
  size : ℚ
  minimal_gpu_memory_gib : ℕ
deriving DecidableEq

/-- `SakuraList.__getitem__`: first entry whose `filename` matches,
else `None`. -/
def sakuraListGet (models : List Sakura) (name : Str) : Option Sakura :=
  models.find? (fun model => decide (model.filename = name))

/-- The recommended `{context_length, n_parallel}` pair. -/
structure RecommendedConfig where
  context_length : ℕ
  n_parallel : ℕ
deriving DecidableEq

/-- The external memory calculator interface: context length to computed
`total_size_gib`, or an error when the calculator raises.  Modelled from
the spec: `CalculateMemory` is an external collaborator (spec section 6)
whose implementation is not part of the provided sources. -/
abbrev Calc := ℕ → Except Unit ℚ

/-- `BytesToGiB` from `utils`.  Modelled from the spec: a byte count
converted to GiB, 1 GiB = 2^30 bytes (spec sections 3 and 8 treat
`2^30 + 1` bytes as "just over 1 GiB"). -/
def bytesToGiB (b : ℕ) : ℚ := (b : ℚ) / 2 ^ 30

/-- Decidable equality for `Except` results, used to evaluate concrete
runs of the embedded operations. -/
def exceptDecEq {ε α : Type} [DecidableEq ε] [DecidableEq α] :
    (a b : Except ε α) → Decidable (a = b)
  | .ok a, .ok b =>
    if h : a = b then .isTrue (by rw [h])
    else .isFalse (fun hc => h (Except.ok.inj hc))
  | .error a, .error b =>
    if h : a = b then .isTrue (by rw [h])
    else .isFalse (fun hc => h (Except.error.inj hc))
  | .ok _, .error _ => .isFalse (fun hc => Except.noConfusion hc)
  | .error _, .ok _ => .isFalse (fun hc => Except.noConfusion hc)

instance {ε α : Type} [DecidableEq ε] [DecidableEq α] : DecidableEq (Except ε α) :=
  exceptDecEq

/-- The ordered `key → GPUInfo` map (`gpu_info_map`). -/
abbrev GpuMap := List (Str × GPUInfo)

/-- Ordered string-keyed environment mapping. -/
abbrev EnvMap := List (Str × Str)

/-- Python `key in dict`. -/
def mapContains (m : GpuMap) (k : Str) : Bool :=
  (m.map Prod.fst).contains k

/-- Python `dict[key]` as an option. -/
def mapLookup (m : GpuMap) (k : Str) : Option GPUInfo :=
  (m.find? (fun kv => decide (kv.1 = k))).map Prod.snd

/-- Python in-place mutation of the object stored at `k` (order kept). -/
def mapSet (m : GpuMap) (k : Str) (v : GPUInfo) : GpuMap :=
  m.map (fun kv => if kv.1 = k then (k, v) else kv)

/-- Python `env[key] = value`: overwrite in place or append. -/
def envSet (env : EnvMap) (k v : Str) : EnvMap :=
  if (env.map Prod.fst).contains k then
    env.map (fun kv => if kv.1 = k then (k, v) else kv)
  else env ++ [(k, v)]

/-- Python `env.get(key)`. -/
def envLookup (env : EnvMap) (k : Str) : Option Str :=
  (env.find? (fun kv => decide (kv.1 = k))).map Prod.snd

/-- `gpu_info` with its cached ability overwritten. -/
def withAbility (g : GPUInfo) (a : GPUAbility) : GPUInfo :=
  ⟨g.name, g.gpu_type, g.dedicated_gpu_memory, g.avail_dedicated_gpu_memory,
    g.pci_bus_id, some a⟩

/-- Python truthiness of an optional string (`if pci_bus_id:`). -/
def optStrTruthy : Option Str → Bool
  | some s => !s.isEmpty
  | none => false

/-! ### `GPUDisplayHelper` (`gpu.py` lines 15-64) -/

/-- `GPUDisplayHelper.create_display_name`. -/
def create_display_name (gpu_info : GPUInfo) (index : ℤ) : Str :=
  if optStrTruthy gpu_info.pci_bus_id then
    gpu_info.name ++ gpuSep ++ intRepr index ++ [')']
  else gpu_info.name

/-- `GPUDisplayHelper.parse_display_name`.  The tuple unpacking of the
`split(" (GPU ")` result happens before the `try:` block, so a label
splitting into a number of parts other than two raises an uncaught
`ValueError`, modelled by `.error ()`; a failing `int(...)` is caught
and yields `(label, None)`. -/
def parse_display_name (display_name : Str) : Except Unit (Str × Option ℤ) :=
  if containsSub display_name gpuSep && containsChar display_name ')' then
    match splitGPU display_name with
    | [name_part, index_part] =>
      match pyInt (rstripParen index_part) with
      | some index => .ok (name_part, some index)
      | none => .ok (display_name, none)
    | _ => .error ()
  else .ok (display_name, none)

/-- `GPUDisplayHelper.find_gpu_key`.  Errors of `parse_display_name`
and of the Python list indexing `matching_keys[gpu_index]` propagate. -/
def find_gpu_key (display_name : Str) (gpu_info_map : GpuMap) :
    Except Unit (Option Str) :=
  if mapContains gpu_info_map display_name then .ok (some display_name)
  else
    match parse_display_name display_name with
    | .error e => .error e
    | .ok (gpu_name, gpu_index) =>
      let matching_keys :=
        (gpu_info_map.filter (fun kv => decide (kv.2.name = gpu_name))).map Prod.fst
      match matching_keys with
      | [] => .ok none
      | k0 :: _ =>
        match gpu_index with
        | some idx =>
          if idx < (matching_keys.length : ℤ) then
            (pyListGet matching_keys idx).map some
          else .ok (some k0)
        | none => .ok (some k0)

/-! ### `GPUManager` (`gpu.py` lines 66-296) -/

/-- `GPUManager.get_gpu_index_from_pci`: second `:`-separated field read
as hex; `IndexError`/`ValueError` are caught and give `0`. -/
def get_gpu_index_from_pci (pci_bus_id : Str) : ℤ :=
  if pci_bus_id ≠ [] ∧ containsChar pci_bus_id ':' = true then
    match splitChar ':' pci_bus_id with
    | _ :: device_id :: _ =>
      match pyIntHex device_id with
      | some v => v
      | none => 0
    | _ => 0
  else 0

/-- `SakuraCalculator.recommend_config`: the loop body over the
descending candidates; a calculator error propagates to the caller. -/
def recommend_config_loop (calculate : Calc) (available_memory_gib : ℚ) :
    List ℕ → Except Unit RecommendedConfig
  | [] => .ok ⟨1536, 1⟩
  | np :: rest =>
    match calculate (1536 * np) with
    | .error e => .error e
    | .ok mem_req =>
      if mem_req ≤ available_memory_gib then .ok ⟨1536 * np, np⟩
      else recommend_config_loop calculate available_memory_gib rest

/-- Python `range(16, 0, -1)`. -/
def descNp : List ℕ := (List.range 16).reverse.map (fun k => k + 1)

/-- `SakuraCalculator.recommend_config` (`sakura.py` lines 82-100). -/
def recommend_config (calculate : Calc) (available_memory_gib : ℚ) :
    Except Unit RecommendedConfig :=
  recommend_config_loop calculate available_memory_gib descNp

/-- The configuration selection inside `_check_dynamic_memory`'s `try:`
block: the caller-supplied pair when both parts are present, else the
recommendation search. -/
def dynamic_step1 (context_length n_parallel : Option ℕ) (calculate : Calc)
    (gpu_mem_gib : ℚ) : Except Unit RecommendedConfig :=
  match context_length, n_parallel with
  | some c, some np => .ok ⟨c, np⟩
  | _, _ => recommend_config calculate gpu_mem_gib

/-- The body of `_check_dynamic_memory`'s `try:` block after the
configuration has been selected: compute the requirement and compare it
to the available GiB; any calculator error escapes to the handler. -/
def dynamic_attempt (gpu_mem_gib total_mem_gib : ℚ)
    (step1 : Except Unit RecommendedConfig) (calculate : Calc) :
    Except Unit GPUAbility :=
  match step1 with
  | .error e => .error e
  | .ok config =>
    match calculate config.context_length with
    | .error e => .error e
    | .ok memory_usage =>
      if gpu_mem_gib < memory_usage then
        .ok ⟨false, .dynamicInsufficient memory_usage gpu_mem_gib total_mem_gib⟩
      else .ok ⟨true, .empty⟩

/-- `GPUManager._check_dynamic_memory` (`gpu.py` lines 211-257):
`gpu_mem` is the live available reading; any calculator failure inside
the `try:` block falls back to the static-minimum comparison against
the available (not total) GiB figure. -/
def check_dynamic_memory (models : List Sakura) (gpu_info : GPUInfo)
    (gpu_mem : ℕ) (model_name : Str)
    (context_length n_parallel : Option ℕ) (calculate : Calc) : GPUAbility :=
  let gpu_mem_gib : ℚ := bytesToGiB gpu_mem
  let total_mem_gib : ℚ := bytesToGiB gpu_info.dedicated_gpu_memory
  match sakuraListGet models model_name with
  | none => ⟨true, .empty⟩
  | some model =>
    match dynamic_attempt gpu_mem_gib total_mem_gib
        (dynamic_step1 context_length n_parallel calculate gpu_mem_gib) calculate with
    | .ok a => a
    | .error _ =>
      if model.minimal_gpu_memory_gib ≠ 0 ∧
          gpu_mem_gib < (model.minimal_gpu_memory_gib : ℚ) then
        ⟨false, .fallbackInsufficient (model.minimal_gpu_memory_gib : ℚ) gpu_mem_gib⟩
      else ⟨true, .empty⟩

/-- `GPUManager._check_static_memory` (`gpu.py` lines 259-278): total
memory, rounded up to a whole GiB when strictly above `2^30` bytes. -/
def check_static_memory (models : List Sakura) (gpu_info : GPUInfo)
    (model_name : Str) : GPUAbility :=
  let gpu_mem := gpu_info.dedicated_gpu_memory
  let gpu_mem_gib : ℚ :=
    if gpu_mem > 2 ^ 30 then ((⌈bytesToGiB gpu_mem⌉ : ℤ) : ℚ)
    else bytesToGiB gpu_mem
  match sakuraListGet models model_name with
  | none => ⟨true, .empty⟩
  | some model =>
    if model.minimal_gpu_memory_gib ≠ 0 ∧
        gpu_mem_gib < (model.minimal_gpu_memory_gib : ℚ) then
      ⟨false, .staticInsufficient (model.minimal_gpu_memory_gib : ℚ) gpu_mem_gib⟩
    else ⟨true, .empty⟩

/-- The ability `check_gpu_ability` computes once the device has been
resolved: dynamic mode when a live available reading exists, else
static mode. -/
def computed_ability (models : List Sakura) (gpu_info : GPUInfo)
    (model_name : Str) (context_length n_parallel : Option ℕ)
    (calculate : Calc) : GPUAbility :=
  match gpu_info.avail_dedicated_gpu_memory with
  | some a =>
    check_dynamic_memory models gpu_info a model_name context_length n_parallel calculate
  | none => check_static_memory models gpu_info model_name

/-- `GPUManager.check_gpu_ability` (`gpu.py` lines 190-209).  Returns the
verdict together with the updated map (the Python code mutates the
`GPUInfo` object held in `gpu_info_map`); a `find_gpu_key` error
propagates. -/
def check_gpu_ability (gpu_info_map : GpuMap) (models : List Sakura)
    (gpu_display_name model_name : Str)
    (context_length n_parallel : Option ℕ) (calculate : Calc) :
    Except Unit (GPUAbility × GpuMap) :=
  match find_gpu_key gpu_display_name gpu_info_map with
  | .error e => .error e
  | .ok none => .ok (⟨false, .notFound⟩, gpu_info_map)
  | .ok (some gpu_key) =>
    if gpu_key = [] then .ok (⟨false, .notFound⟩, gpu_info_map)
    else
      match mapLookup gpu_info_map gpu_key with
      | none => .ok (⟨false, .notFound⟩, gpu_info_map)
      | some gpu_info =>
        if gpu_info.gpu_type = .NVIDIA ∨ gpu_info.gpu_type = .AMD then
          let ability :=
            computed_ability models gpu_info model_name context_length n_parallel calculate
          .ok (ability, mapSet gpu_info_map gpu_key (withAbility gpu_info ability))
        else .ok (⟨false, .unsupportedVendor⟩, gpu_info_map)

/-- The key `"CUDA_VISIBLE_DEVICES"`. -/
def cudaVar : Str := "CUDA_VISIBLE_DEVICES".toList

/-- The key `"HIP_VISIBLE_DEVICES"`. -/
def hipVar : Str := "HIP_VISIBLE_DEVICES".toList

/-- `GPUManager.set_gpu_env` (`gpu.py` lines 280-296).  `nvidia_gpus` is
the detection-time list of NVIDIA display labels; a `find_gpu_key` error
or a `KeyError` on the map lookup propagates. -/
def set_gpu_env (gpu_info_map : GpuMap) (nvidia_gpus : List Str)
    (env : EnvMap) (selected_gpu_display_name : Str) (selected_index : ℤ) :
    Except Unit EnvMap :=
  match find_gpu_key selected_gpu_display_name gpu_info_map with
  | .error e => .error e
  | .ok none => .ok env
  | .ok (some gpu_key) =>
    if gpu_key = [] then .ok env
    else
      match mapLookup gpu_info_map gpu_key with
      | none => .error ()
      | some gpu_info =>
        match gpu_info.gpu_type with
        | .NVIDIA => .ok (envSet env cudaVar (intRepr selected_index))
        | .AMD =>
          .ok (envSet env hipVar (intRepr (selected_index - (nvidia_gpus.length : ℤ))))
        | _ => .ok env

/-! ### Claim-side definitions (statements of the spec, for comparison) -/

/-- The static-mode GiB figure exactly as the spec words it: total
memory in GiB, rounded up to the nearest whole GiB whenever total
memory exceeds 1 GiB, unrounded otherwise. -/
def staticGibFigure (totalMemoryBytes : ℕ) : ℚ :=
  if totalMemoryBytes > 2 ^ 30 then ((⌈bytesToGiB totalMemoryBytes⌉ : ℤ) : ℚ)
  else bytesToGiB totalMemoryBytes

/-- `RecommendConfig` exactly as the spec words it: the first (largest)
`p` in `[16, …, 1]` whose requirement fits, else the floor default. -/
def recommendSpec (f : ℕ → ℚ) (avail : ℚ) : RecommendedConfig :=
  match descNp.find? (fun p => decide (f (1536 * p) ≤ avail)) with
  | some p => ⟨1536 * p, p⟩
  | none => ⟨1536, 1⟩

/-! ### Concrete instances used by counterexamples and witnesses -/

/-- An always-failing external calculator. -/
def calcFail : Calc := fun _ => .error ()

/-- A model catalog entry demanding a 2 GiB static minimum. -/
def model2 : Sakura := ⟨['R'], ['M'], [], 1, 2⟩

/-- A model catalog entry demanding an 8 GiB static minimum. -/
def model8 : Sakura := ⟨['R'], ['M'], [], 1, 8⟩

/-- A static-mode NVIDIA device reporting `2^30 + 1` total bytes. -/
def infoBoundary : GPUInfo := ⟨['d'], .NVIDIA, 2 ^ 30 + 1, none, none, none⟩

/-- A dynamic-mode NVIDIA device: 16 GiB total, 1 GiB available. -/
def infoDyn : GPUInfo := ⟨['d'], .NVIDIA, 16 * 2 ^ 30, some (2 ^ 30), none, none⟩

/-- An Intel device (unsupported vendor). -/
def infoIntel : GPUInfo := ⟨['g'], .INTEL, 2 ^ 30, none, none, none⟩

/-- A device whose name itself contains the `" (GPU "` separator. -/
def infoNamed : GPUInfo :=
  ⟨"X (GPU 0) (GPU 1)".toList, .NVIDIA, 2 ^ 30, none, none, none⟩

/-- An AMD device keyed and labelled by its bare name. -/
def infoAmd : GPUInfo := ⟨"Radeon".toList, .AMD, 2 ^ 30, none, none, none⟩

/-- A device with a non-empty PCI bus id and a benign name. -/
def infoPci : GPUInfo :=
  ⟨"MyCard".toList, .NVIDIA, 2 ^ 30, none, some "00000000:01:00.0".toList, none⟩

/-- A device with a non-empty PCI bus id whose name contains `" (GPU "`. -/
def infoSepName : GPUInfo :=
  ⟨"A (GPU 1)".toList, .NVIDIA, 2 ^ 30, none, some ['x'], none⟩

/-- The verdict `_check_dynamic_memory` produces on its calculator-failure
fallback path: the live available GiB figure against the declared static
minimum. -/
def fallbackAbility (mdl : Sakura) (a : ℕ) : GPUAbility :=
  if mdl.minimal_gpu_memory_gib ≠ 0 ∧ bytesToGiB a < (mdl.minimal_gpu_memory_gib : ℚ) then
    ⟨false, .fallbackInsufficient (mdl.minimal_gpu_memory_gib : ℚ) (bytesToGiB a)⟩
  else ⟨true, .empty⟩

/-! ### Helper lemmas on the string primitives -/

theorem gpuSep_length : gpuSep.length = 6 := rfl

theorem containsSub_iff {s pat : Str} : containsSub s pat = true ↔ pat <:+: s := by
  unfold containsSub
  rw [List.any_eq_true]
  constructor
  · rintro ⟨t, ht, hp⟩
    rw [List.mem_tails] at ht
    rw [ List.isPrefixOf_iff_prefix] at hp
    exact List.infix_iff_prefix_suffix.mpr ⟨t, hp, ht⟩
  · intro h
    obtain ⟨t, hp, ht⟩ := List.infix_iff_prefix_suffix.mp h
    exact ⟨t, (List.mem_tails _ _).mpr ht, ( List.isPrefixOf_iff_prefix).mpr hp⟩

theorem containsChar_iff {s : Str} {c : Char} : containsChar s c = true ↔ c ∈ s := by
  unfold containsChar
  rw [List.any_eq_true]
  constructor
  · rintro ⟨x, hx, he⟩
    rw [decide_eq_true_eq] at he
    exact he ▸ hx
  · intro h
    exact ⟨c, h, by simp⟩

theorem splitGPUAux_ne_nil (fuel : ℕ) (l : Str) : splitGPUAux fuel l ≠ [] := by
  match fuel, l with
  | 0, l => simp [splitGPUAux]
  | _ + 1, [] => simp [splitGPUAux]
  | fuel + 1, c :: cs =>
    rw [splitGPUAux]
    split
    · simp
    · split <;> simp

theorem splitGPUAux_of_no_sep (fuel : ℕ) (l : Str) (hf : l.length ≤ fuel)
    (h : ¬ gpuSep <:+: l) : splitGPUAux fuel l = [l] := by
  induction fuel generalizing l with
  | zero => rfl
  | succ f ih =>
    match l with
    | [] => rfl
    | c :: cs =>
      rw [splitGPUAux]
      have hnp : gpuSep.isPrefixOf (c :: cs) = false := by
        rw [Bool.eq_false_iff]
        intro hp
        rw [ List.isPrefixOf_iff_prefix] at hp
        exact h (List.infix_iff_prefix_suffix.mpr ⟨c :: cs, hp, List.suffix_rfl⟩)
      rw [hnp]
      simp only [Bool.false_eq_true, if_false]
      have hcs : splitGPUAux f cs = [cs] := by
        apply ih cs (by simpa using Nat.le_of_succ_le_succ (by simpa using hf))
        intro hin
        exact h (List.infix_cons hin)
      rw [hcs]

theorem splitGPUAux_append (tail : Str) (htail : ¬ gpuSep <:+: tail) :
    ∀ (name : Str) (fuel : ℕ), (name ++ gpuSep ++ tail).length ≤ fuel →
    (∀ j, j < name.length → ¬ gpuSep <+: (name.drop j ++ gpuSep ++ tail)) →
    splitGPUAux fuel (name ++ gpuSep ++ tail) = [name, tail] := by
  intro name
  induction name with
  | nil =>
    intro fuel hf _
    simp only [List.nil_append] at hf ⊢
    match fuel with
    | 0 => simp [gpuSep] at hf
    | f + 1 =>
      have hshape : gpuSep ++ tail = ' ' :: ([ '(', 'G', 'P', 'U', ' '] ++ tail) := rfl
      rw [hshape, splitGPUAux]
      have hpre : gpuSep.isPrefixOf (' ' :: ([ '(', 'G', 'P', 'U', ' '] ++ tail)) = true := by
        rw [ List.isPrefixOf_iff_prefix]
        rw [← hshape]
        exact List.prefix_append _ _
      rw [hpre]
      simp only [if_true]
      have hdrop : (' ' :: ([ '(', 'G', 'P', 'U', ' '] ++ tail)).drop 6 = tail := by
        rw [← hshape]
        exact List.drop_left' gpuSep_length
      rw [hdrop]
      have hlen : tail.length ≤ f := by
        rw [hshape] at hf
        simp at hf
        omega
      rw [splitGPUAux_of_no_sep f tail hlen htail]
  | cons c name' ih =>
    intro fuel hf hocc
    match fuel with
    | 0 => simp at hf
    | f + 1 =>
      have hshape : (c :: name') ++ gpuSep ++ tail = c :: (name' ++ gpuSep ++ tail) := by
        simp
      rw [hshape, splitGPUAux]
      have hnp : gpuSep.isPrefixOf (c :: (name' ++ gpuSep ++ tail)) = false := by
        rw [Bool.eq_false_iff]
        intro hp
        rw [ List.isPrefixOf_iff_prefix] at hp
        have h0 := hocc 0 (by simp)
        rw [List.drop_zero] at h0
        rw [hshape] at h0
        exact h0 hp
      rw [hnp]
      simp only [Bool.false_eq_true, if_false]
      have hrec : splitGPUAux f (name' ++ gpuSep ++ tail) = [name', tail] := by
        apply ih f
        · rw [hshape] at hf
          simpa using Nat.le_of_succ_le_succ (by simpa using hf)
        · intro j hj
          have := hocc (j + 1) (by simpa using Nat.succ_lt_succ hj)
          simpa using this
      rw [hrec]

theorem no_early_sep (name tail : Str)
    (h1 : containsSub name gpuSep = false)
    (h2 : [' ', '(', 'G', 'P', 'U'].isSuffixOf name = false) :
    ∀ j, j < name.length → ¬ gpuSep <+: (name.drop j ++ gpuSep ++ tail) := by
  intro j hj hp
  have hxlen : (name.drop j).length = name.length - j := by simp
  have hxpos : 1 ≤ (name.drop j).length := by omega
  rw [List.prefix_iff_eq_take, gpuSep_length] at hp
  by_cases hcase : 6 ≤ (name.drop j).length
  · -- the occurrence lies entirely inside `name`
    rw [List.append_assoc, List.take_append_of_le_length hcase] at hp
    have hpref : gpuSep <+: name.drop j := by
      rw [hp]
      exact List.take_prefix _ _
    have hinf : gpuSep <:+: name :=
      List.infix_iff_prefix_suffix.mpr ⟨name.drop j, hpref, List.drop_suffix _ _⟩
    rw [← containsSub_iff] at hinf
    rw [h1] at hinf
    exact Bool.false_ne_true hinf
  · -- the occurrence straddles the boundary of `name` and the separator
    push_neg at hcase
    set x := name.drop j with hxdef
    set k := x.length with hkdef
    have hk1 : 1 ≤ k := hxpos
    have hk5 : k ≤ 5 := by omega
    rw [List.append_assoc, List.take_append_eq_append_take,
      List.take_of_length_le (by omega),
      List.take_append_of_le_length (by rw [gpuSep_length]; omega)] at hp
    -- hp : gpuSep = x ++ gpuSep.take (6 - k)
    have hdropk : gpuSep.drop k = gpuSep.take (6 - k) := by
      have := congrArg (fun l => List.drop k l) hp
      simpa [List.drop_left' hkdef.symm] using this
    have htakek : gpuSep.take k = x := by
      have := congrArg (fun l => List.take k l) hp
      simpa [List.take_left' hkdef.symm] using this
    interval_cases k
    · simp [gpuSep] at hdropk
    · simp [gpuSep] at hdropk
    · simp [gpuSep] at hdropk
    · simp [gpuSep] at hdropk
    · -- k = 5: name must end with " (GPU"
      have hx5 : x = [' ', '(', 'G', 'P', 'U'] := by
        rw [← htakek]; rfl
      have hsuf : [' ', '(', 'G', 'P', 'U'] <:+ name := by
        rw [← hx5, hxdef]
        exact List.drop_suffix _ _
      rw [← List.isSuffixOf_iff_suffix] at hsuf
      rw [h2] at hsuf
      exact Bool.false_ne_true hsuf

/-! ### Decimal representations parse back to themselves -/

theorem digitVal_digitChar {d : ℕ} (hd : d < 10) :
    digitVal (Nat.digitChar d) = some d := by
  interval_cases d <;> decide

theorem digitChar_bounds {d : ℕ} (hd : d < 10) :
    '0' ≤ Nat.digitChar d ∧ Nat.digitChar d ≤ '9' := by
  interval_cases d <;> exact ⟨by decide, by decide⟩

theorem natReprAux_digits : ∀ (fuel n : ℕ), ∀ c ∈ natReprAux fuel n,
    '0' ≤ c ∧ c ≤ '9' := by
  intro fuel
  induction fuel with
  | zero => intro n c hc; simp [natReprAux] at hc
  | succ f ih =>
    intro n c hc
    match n with
    | 0 => simp [natReprAux] at hc
    | m + 1 =>
      rw [natReprAux] at hc
      rw [List.mem_append] at hc
      rcases hc with hc | hc
      · exact ih _ c hc
      · rw [List.mem_singleton] at hc
        subst hc
        exact digitChar_bounds (Nat.mod_lt _ (by omega))

theorem natReprAux_ne_nil : ∀ (fuel n : ℕ), 1 ≤ n → n ≤ fuel →
    natReprAux fuel n ≠ [] := by
  intro fuel n h1 h2
  match fuel, n with
  | 0, n => omega
  | f + 1, 0 => omega
  | f + 1, m + 1 => simp [natReprAux]

theorem natRepr_digits (n : ℕ) : ∀ c ∈ natRepr n, '0' ≤ c ∧ c ≤ '9' := by
  rw [natRepr]
  split
  · intro c hc
    rw [List.mem_singleton] at hc
    subst hc
    exact ⟨by decide, by decide⟩
  · exact natReprAux_digits n n

theorem natRepr_ne_nil (n : ℕ) : natRepr n ≠ [] := by
  rw [natRepr]
  split
  · simp
  · exact natReprAux_ne_nil n n (by omega) le_rfl

theorem parseDigitsAux_append (xs ys : Str) (acc : ℕ) :
    parseDigitsAux (xs ++ ys) acc =
      match parseDigitsAux xs acc with
      | some a => parseDigitsAux ys a
      | none => none := by
  induction xs generalizing acc with
  | nil => rfl
  | cons c cs ih =>
    simp only [List.cons_append, parseDigitsAux]
    cases hd : digitVal c with
    | some d => exact ih _
    | none => rfl

theorem parseDigitsAux_natReprAux : ∀ (fuel n acc : ℕ), n ≤ fuel →
    parseDigitsAux (natReprAux fuel n) acc =
      some (acc * 10 ^ (natReprAux fuel n).length + n) := by
  intro fuel
  induction fuel with
  | zero =>
    intro n acc hle
    have : n = 0 := by omega
    subst this
    simp [natReprAux, parseDigitsAux]
  | succ f ih =>
    intro n acc hle
    match n with
    | 0 => simp [natReprAux, parseDigitsAux]
    | m + 1 =>
      rw [natReprAux, parseDigitsAux_append]
      have hdivle : (m + 1) / 10 ≤ f := by
        have := Nat.div_lt_self (show 0 < m + 1 by omega) (show 1 < 10 by omega)
        omega
      rw [ih _ acc hdivle]
      have hmod : (m + 1) % 10 < 10 := Nat.mod_lt _ (by omega)
      simp only [parseDigitsAux, digitVal_digitChar hmod]
      have hdm := Nat.div_add_mod (m + 1) 10
      rw [List.length_append, List.length_cons, List.length_nil]
      have hpow : acc * 10 ^ ((natReprAux f ((m + 1) / 10)).length + (0 + 1)) =
          acc * 10 ^ (natReprAux f ((m + 1) / 10)).length * 10 := by
        rw [pow_succ, ← mul_assoc]
      rw [hpow]
      congr 1
      set Q := acc * 10 ^ (natReprAux f ((m + 1) / 10)).length
      omega

theorem parseDigits_natRepr (n : ℕ) : parseDigits (natRepr n) = some n := by
  by_cases h : n = 0
  · subst h; decide
  · rw [parseDigits]
    have hne : natRepr n ≠ [] := natRepr_ne_nil n
    rw [if_neg hne]
    rw [natRepr, if_neg h]
    have := parseDigitsAux_natReprAux n n 0 le_rfl
    rw [this]
    simp

theorem dropWhile_eq_self_of_false {p : Char → Bool} (l : Str)
    (h : ∀ c ∈ l, p c = false) : l.dropWhile p = l := by
  match l with
  | [] => rfl
  | c :: cs =>
    have := h c (by simp)
    rw [List.dropWhile_cons_of_neg (by simp [this])]

theorem stripSpaces_of_digits (l : Str) (h : ∀ c ∈ l, '0' ≤ c ∧ c ≤ '9') :
    stripSpaces l = l := by
  have hws : ∀ c ∈ l, c.isWhitespace = false := by
    intro c hc
    obtain ⟨h1, h2⟩ := h c hc
    rw [Char.isWhitespace]
    by_contra hw
    rw [Bool.not_eq_false] at hw
    simp only [Bool.or_eq_true, decide_eq_true_eq] at hw
    rcases hw with ((he | he) | he) | he <;> subst he <;> revert h1 <;> decide
  rw [stripSpaces, dropWhile_eq_self_of_false l hws,
    dropWhile_eq_self_of_false l.reverse (fun c hc => hws c (List.mem_reverse.mp hc)),
    List.reverse_reverse]

theorem rstripParen_append_paren (l : Str) (h : ∀ c ∈ l, '0' ≤ c ∧ c ≤ '9') :
    rstripParen (l ++ [')']) = l := by
  rw [rstripParen]
  rw [List.reverse_append, List.reverse_singleton, List.singleton_append]
  rw [List.dropWhile_cons_of_pos (by decide)]
  rw [dropWhile_eq_self_of_false l.reverse (fun c hc => by
    obtain ⟨h1, _⟩ := h c (List.mem_reverse.mp hc)
    rw [decide_eq_false_iff_not]
    intro he
    subst he
    revert h1
    decide)]
  exact List.reverse_reverse l

theorem pyInt_natRepr (n : ℕ) : pyInt (natRepr n) = some (n : ℤ) := by
  rw [pyInt]
  rw [stripSpaces_of_digits (natRepr n) (natRepr_digits n)]
  have hd := natRepr_digits n
  have hp := parseDigits_natRepr n
  cases hrepr : natRepr n with
  | nil => exact absurd hrepr (natRepr_ne_nil n)
  | cons c rest =>
    rw [hrepr] at hd hp
    obtain ⟨h1, _⟩ := hd c (by simp)
    have hc1 : ¬ c = '-' := by intro he; subst he; revert h1; decide
    have hc2 : ¬ c = '+' := by intro he; subst he; revert h1; decide
    simp [hc1, hc2, hp]

theorem intRepr_natCast (i : ℕ) : intRepr (i : ℤ) = natRepr i := by
  rw [intRepr, if_neg (by simp), Int.natAbs_ofNat]

/-! ### The display-label round trip -/

theorem parse_create_roundtrip_aux (name : Str) (i : ℕ)
    (hname1 : containsSub name gpuSep = false)
    (hname2 : [' ', '(', 'G', 'P', 'U'].isSuffixOf name = false) :
    parse_display_name (name ++ gpuSep ++ natRepr i ++ [')']) =
      .ok (name, some (i : ℤ)) := by
  have hassoc : name ++ gpuSep ++ natRepr i ++ [')'] =
      name ++ gpuSep ++ (natRepr i ++ [')']) := by
    rw [List.append_assoc (name ++ gpuSep)]
  rw [hassoc]
  have htail : ¬ gpuSep <:+: (natRepr i ++ [')']) := by
    intro hinf
    have hsp : ' ' ∈ natRepr i ++ [')'] := hinf.sublist.subset (by decide)
    rw [List.mem_append] at hsp
    rcases hsp with hsp | hsp
    · obtain ⟨hb, _⟩ := natRepr_digits i ' ' hsp
      revert hb; decide
    · simp at hsp
  have hocc := no_early_sep name (natRepr i ++ [')']) hname1 hname2
  have hsplit : splitGPU (name ++ gpuSep ++ (natRepr i ++ [')'])) =
      [name, natRepr i ++ [')']] :=
    splitGPUAux_append (natRepr i ++ [')']) htail name _ le_rfl hocc
  have hc1 : containsSub (name ++ gpuSep ++ (natRepr i ++ [')'])) gpuSep = true := by
    rw [containsSub_iff]
    refine List.infix_iff_prefix_suffix.mpr
      ⟨gpuSep ++ (natRepr i ++ [')']), List.prefix_append _ _, ?_⟩
    rw [List.append_assoc]
    exact List.suffix_append _ _
  have hc2 : containsChar (name ++ gpuSep ++ (natRepr i ++ [')'])) ')' = true := by
    rw [containsChar_iff]
    simp
  have hrstrip : rstripParen (natRepr i ++ [')']) = natRepr i :=
    rstripParen_append_paren _ (natRepr_digits i)
  rw [parse_display_name, hc1, hc2]
  simp only [Bool.and_self, if_true]
  rw [hsplit]
  simp [hrstrip, pyInt_natRepr]

/-! ### Helper lemmas on the embedded operations -/

theorem splitChar_of_not_contains (sep : Char) (s : Str)
    (h : containsChar s sep = false) : splitChar sep s = [s] := by
  induction s with
  | nil => rfl
  | cons c cs ih =>
    have hmem : sep ∉ c :: cs := by
      intro hin
      rw [← containsChar_iff] at hin
      rw [h] at hin
      exact Bool.false_ne_true hin
    have hc : ¬ c = sep := by
      intro he
      exact hmem (he ▸ List.mem_cons_self c cs)
    have hcs : containsChar cs sep = false := by
      rw [← Bool.not_eq_true, containsChar_iff]
      intro hin
      exact hmem (List.mem_cons_of_mem c hin)
    rw [splitChar, if_neg hc, ih hcs]

theorem recommend_config_loop_pure (f : ℕ → ℚ) (avail : ℚ) :
    ∀ l : List ℕ, recommend_config_loop (fun c => .ok (f c)) avail l =
      .ok (match l.find? (fun p => decide (f (1536 * p) ≤ avail)) with
        | some p => (⟨1536 * p, p⟩ : RecommendedConfig)
        | none => ⟨1536, 1⟩) := by
  intro l
  induction l with
  | nil => rfl
  | cons np rest ih =>
    by_cases h : f (1536 * np) ≤ avail
    · rw [List.find?_cons_of_pos _ (by simpa using h)]
      simp only [recommend_config_loop, if_pos h]
    · rw [List.find?_cons_of_neg _ (by simpa using h)]
      simp only [recommend_config_loop, if_neg h]
      exact ih

theorem mapLookup_mapSet (m : GpuMap) (k : Str) (info v : GPUInfo)
    (h : mapLookup m k = some info) : mapLookup (mapSet m k v) k = some v := by
  induction m with
  | nil => simp [mapLookup] at h
  | cons kv rest ih =>
    by_cases hk : kv.1 = k
    · simp only [mapLookup, mapSet, List.map_cons, if_pos hk]
      rw [List.find?_cons_of_pos _ (by simp)]
      rfl
    · simp only [mapLookup, mapSet, List.map_cons, if_neg hk] at h ⊢
      rw [List.find?_cons_of_neg _ (by simpa using hk)] at h
      rw [List.find?_cons_of_neg _ (by simpa using hk)]
      have hrec := ih (show mapLookup rest k = some info from h)
      simpa only [mapLookup, mapSet] using hrec

theorem recommend_config_error (calculate : Calc)
    (hc : ∀ c, calculate c = .error ()) (g : ℚ) :
    recommend_config calculate g = .error () := by
  rw [recommend_config]
  rw [show descNp = 16 :: ((List.range 15).reverse.map (fun k => k + 1)) from by decide]
  rw [recommend_config_loop, hc (1536 * 16)]

theorem dynamic_attempt_error (calculate : Calc)
    (hc : ∀ c, calculate c = .error ()) (gib tot : ℚ)
    (s : Except Unit RecommendedConfig) :
    dynamic_attempt gib tot s calculate = .error () := by
  match s with
  | .error () => rfl
  | .ok config =>
    rw [dynamic_attempt, hc config.context_length]

theorem check_dynamic_memory_error (models : List Sakura) (info : GPUInfo)
    (a : ℕ) (model_name : Str) (ctx np : Option ℕ) (calculate : Calc)
    (mdl : Sakura) (hm : sakuraListGet models model_name = some mdl)
    (hc : ∀ c, calculate c = .error ()) :
    check_dynamic_memory models info a model_name ctx np calculate =
      fallbackAbility mdl a := by
  simp only [check_dynamic_memory, hm, dynamic_attempt_error calculate hc]
  rfl

theorem check_gpu_ability_resolved (m : GpuMap) (models : List Sakura)
    (label model_name : Str) (ctx np : Option ℕ) (calculate : Calc)
    (k : Str) (info : GPUInfo)
    (hfind : find_gpu_key label m = .ok (some k)) (hk : k ≠ [])
    (hlook : mapLookup m k = some info)
    (hv : info.gpu_type = .NVIDIA ∨ info.gpu_type = .AMD) :
    check_gpu_ability m models label model_name ctx np calculate =
      .ok (computed_ability models info model_name ctx np calculate,
        mapSet m k
          (withAbility info (computed_ability models info model_name ctx np calculate))) := by
  simp only [check_gpu_ability, hfind, hlook, if_neg hk, if_pos hv]

theorem set_gpu_env_amd_resolved (m : GpuMap) (nvidia_gpus : List Str)
    (env : EnvMap) (label : Str) (idx : ℤ) (k : Str) (info : GPUInfo)
    (hfind : find_gpu_key label m = .ok (some k)) (hk : k ≠ [])
    (hlook : mapLookup m k = some info) (hv : info.gpu_type = .AMD) :
    set_gpu_env m nvidia_gpus env label idx =
      .ok (envSet env hipVar (intRepr (idx - (nvidia_gpus.length : ℤ)))) := by
  simp only [set_gpu_env, hfind, hlook, if_neg hk, hv]

/-! ### Claim C1 -/

/-- C1 (corrected claim): in static memory mode, `_check_static_memory`
compares the total-memory GiB figure — rounded up to a whole GiB exactly
when the byte count exceeds `2^30` — against a nonzero declared minimum,
failing with a reason that cites the minimum and that figure if and only
if the figure is strictly below the minimum; in particular at
`totalMemoryBytes = 2^30 + 1` against a minimum of 2 GiB the rounded-up
actual of 2 GiB is not below the required 2 GiB, so the verdict is
capable. -/
theorem c1_static_rounds_up (models : List Sakura) (model_name : Str)
    (m : Sakura) (info : GPUInfo)
    (hm : sakuraListGet models model_name = some m)
    (hmin : m.minimal_gpu_memory_gib ≠ 0) :
    check_static_memory models info model_name =
      (if staticGibFigure info.dedicated_gpu_memory < (m.minimal_gpu_memory_gib : ℚ) then
        ⟨false, .staticInsufficient (m.minimal_gpu_memory_gib : ℚ)
          (staticGibFigure info.dedicated_gpu_memory)⟩
      else ⟨true, .empty⟩) := by
  rw [check_static_memory, hm]
  rw [staticGibFigure]
  by_cases hlt :
      (if info.dedicated_gpu_memory > 2 ^ 30 then ((⌈bytesToGiB info.dedicated_gpu_memory⌉ : ℤ) : ℚ)
        else bytesToGiB info.dedicated_gpu_memory) < (m.minimal_gpu_memory_gib : ℚ) <;>
    simp [hmin, hlt]

/-- C1 witness: the general theorem applied to the catalog `[model2]`
and the boundary device `infoBoundary`. -/
theorem c1_static_rounds_up_witness :
    sakuraListGet [model2] ['M'] = some model2 ∧
    model2.minimal_gpu_memory_gib ≠ 0 ∧
    check_static_memory [model2] infoBoundary ['M'] =
      (if staticGibFigure infoBoundary.dedicated_gpu_memory <
          (model2.minimal_gpu_memory_gib : ℚ) then
        ⟨false, .staticInsufficient (model2.minimal_gpu_memory_gib : ℚ)
          (staticGibFigure infoBoundary.dedicated_gpu_memory)⟩
      else ⟨true, .empty⟩) :=
  ⟨rfl, by decide, c1_static_rounds_up [model2] ['M'] model2 infoBoundary rfl (by decide)⟩

/-- C1 counterexample: at `totalMemoryBytes = 2^30 + 1` against a model
with `minimalGpuMemoryGiB = 2`, the full `check_gpu_ability` pipeline
returns `isCapable = true` (the rounded-up actual of 2 GiB is not below
the required 2 GiB), not the `isCapable = false` the claim asserts. -/
theorem c1_boundary_counterexample :
    check_gpu_ability [(['d'], infoBoundary)] [model2] ['d'] ['M'] none none calcFail =
      .ok (⟨true, .empty⟩, [(['d'], withAbility infoBoundary ⟨true, .empty⟩)]) := by
  have h2 : (⌈bytesToGiB 1073741825⌉ : ℤ) = 2 := by
    rw [bytesToGiB]
    rw [Int.ceil_eq_iff]
    all_goals norm_num
  have hstat : check_static_memory [model2] infoBoundary ['M'] = ⟨true, .empty⟩ := by
    simp [check_static_memory, sakuraListGet, model2, infoBoundary, h2]
  have hfind : find_gpu_key ['d'] [(['d'], infoBoundary)] = .ok (some ['d']) := by decide
  have hres := check_gpu_ability_resolved [(['d'], infoBoundary)] [model2] ['d'] ['M']
    none none calcFail ['d'] infoBoundary hfind (by decide) (by decide) (Or.inl rfl)
  rw [hres]
  have hca : computed_ability [model2] infoBoundary ['M'] none none calcFail =
      ⟨true, .empty⟩ := by
    rw [computed_ability]
    exact hstat
  rw [hca]
  rfl

/-! ### Claim C2 -/

/-- C2 (corrected claim): in dynamic memory mode with a known model, when
every external calculator call fails, `_check_dynamic_memory` does not
propagate the error; it falls back to comparing the device's live
available memory in GiB (unrounded) against the model's nonzero declared
static minimum — not the total memory with round-up — and
`check_gpu_ability` returns that fallback verdict and caches it. -/
theorem c2_calculator_failure_fallback (m : GpuMap) (models : List Sakura)
    (label model_name : Str) (ctx np : Option ℕ) (calculate : Calc)
    (k : Str) (info : GPUInfo) (a : ℕ) (mdl : Sakura)
    (hfind : find_gpu_key label m = .ok (some k)) (hk : k ≠ [])
    (hlook : mapLookup m k = some info)
    (hv : info.gpu_type = .NVIDIA ∨ info.gpu_type = .AMD)
    (ha : info.avail_dedicated_gpu_memory = some a)
    (hm : sakuraListGet models model_name = some mdl)
    (hc : ∀ c, calculate c = .error ()) :
    check_gpu_ability m models label model_name ctx np calculate =
      .ok (fallbackAbility mdl a, mapSet m k (withAbility info (fallbackAbility mdl a))) := by
  have hca : computed_ability models info model_name ctx np calculate =
      fallbackAbility mdl a := by
    rw [computed_ability, ha]
    exact check_dynamic_memory_error models info a model_name ctx np calculate mdl hm hc
  rw [check_gpu_ability_resolved m models label model_name ctx np calculate k info
    hfind hk hlook hv, hca]

/-- C2 witness: the fallback theorem applied to a concrete dynamic-mode
device and an always-failing calculator. -/
theorem c2_calculator_failure_fallback_witness :
    check_gpu_ability [(['d'], infoDyn)] [model8] ['d'] ['M'] none none calcFail =
      .ok (fallbackAbility model8 (2 ^ 30),
        mapSet [(['d'], infoDyn)] ['d']
          (withAbility infoDyn (fallbackAbility model8 (2 ^ 30)))) :=
  c2_calculator_failure_fallback [(['d'], infoDyn)] [model8] ['d'] ['M'] none none
    calcFail ['d'] infoDyn (2 ^ 30) model8 (by decide) (by decide) (by decide)
    (Or.inl rfl) (by decide) rfl (fun _ => rfl)

/-- C2 counterexample: with 16 GiB total but only 1 GiB available and a
model demanding 8 GiB, the calculator-failure fallback reports
not-capable (1 GiB available < 8 GiB), while the static check of step 4
— which the claim says the result equals — reports capable
(16 GiB total ≥ 8 GiB). -/
theorem c2_fallback_counterexample :
    check_dynamic_memory [model8] infoDyn (2 ^ 30) ['M'] none none calcFail =
      ⟨false, .fallbackInsufficient 8 1⟩ ∧
    check_static_memory [model8] infoDyn ['M'] = ⟨true, .empty⟩ := by
  constructor
  · have h1 : bytesToGiB 1073741824 = 1 := by rw [bytesToGiB]; norm_num
    simp [check_dynamic_memory, sakuraListGet, model8, infoDyn, h1,
      dynamic_attempt_error calcFail (fun _ => rfl)]
  · have h2 : (⌈bytesToGiB 17179869184⌉ : ℤ) = 16 := by rw [bytesToGiB]; norm_num
    simp [check_static_memory, sakuraListGet, model8, infoDyn, h2]
    norm_num [h2]

/-! ### Claim C3 -/

/-- C3: `recommend_config` over a total calculator returns exactly the
first parallelism `p` in `16, 15, …, 1` whose computed requirement for
context `1536 * p` fits the available memory (with that context length),
or the floor default `{1536, 1}` when none fits; consequently the
returned configuration's requirement never exceeds the available memory
except in that floor-fallback case. -/
theorem c3_recommend_config_correct (f : ℕ → ℚ) (avail : ℚ) :
    recommend_config (fun c => .ok (f c)) avail = .ok (recommendSpec f avail) ∧
    (f (1536 * (recommendSpec f avail).n_parallel) ≤ avail ∨
      recommendSpec f avail = ⟨1536, 1⟩) := by
  constructor
  · rw [recommend_config, recommend_config_loop_pure f avail descNp, recommendSpec]
  · rw [recommendSpec]
    cases hfind : descNp.find? (fun p => decide (f (1536 * p) ≤ avail)) with
    | none => exact Or.inr rfl
    | some p =>
      left
      have := List.find?_some hfind
      simpa using this

/-! ### Claim C4 -/

/-- C4 (corrected claim): for every device whose PCI bus id is non-empty
and whose name neither contains the substring `" (GPU "` nor ends with
`" (GPU"`, and every natural index `i`, parsing the rendered display
label returns exactly `(name, i)`. -/
theorem c4_roundtrip (info : GPUInfo) (pci : Str) (i : ℕ)
    (hpci : info.pci_bus_id = some pci) (hne : pci ≠ [])
    (hname1 : containsSub info.name gpuSep = false)
    (hname2 : [' ', '(', 'G', 'P', 'U'].isSuffixOf info.name = false) :
    parse_display_name (create_display_name info (i : ℤ)) =
      .ok (info.name, some (i : ℤ)) := by
  have htruthy : optStrTruthy info.pci_bus_id = true := by
    rw [hpci, optStrTruthy]
    simpa using hne
  rw [create_display_name, if_pos htruthy, intRepr_natCast]
  exact parse_create_roundtrip_aux info.name i hname1 hname2

/-- C4 witness: the round trip at the concrete device `infoPci` and
index 3. -/
theorem c4_roundtrip_witness :
    parse_display_name (create_display_name infoPci ((3 : ℕ) : ℤ)) =
      .ok (infoPci.name, some ((3 : ℕ) : ℤ)) :=
  c4_roundtrip infoPci "00000000:01:00.0".toList 3 rfl (by decide) (by decide) (by decide)

/-- C4 counterexample: for a device named `"A (GPU 1)"` with a non-empty
PCI bus id, parsing the rendered label raises (the split yields three
parts and the tuple unpacking fails), so the round trip does not return
`(name, 0)`. -/
theorem c4_roundtrip_counterexample :
    parse_display_name (create_display_name infoSepName ((0 : ℕ) : ℤ)) = .error () ∧
    parse_display_name (create_display_name infoSepName ((0 : ℕ) : ℤ)) ≠
      .ok (infoSepName.name, some ((0 : ℕ) : ℤ)) := by
  constructor <;> decide

/-! ### Claim C5 -/

/-- C5 (code bug): `parse_display_name` is not total — on the label
`"A (GPU 1) (GPU 2)"`, whose name part contains the `" (GPU "`
separator, the tuple unpacking of the three-way split raises an uncaught
`ValueError` instead of returning `(label, None)` as the spec's
error-handling policy requires. -/
theorem c5_parse_raises :
    parse_display_name "A (GPU 1) (GPU 2)".toList = .error () := by
  decide

/-! ### Claim C6 -/

/-- C6 (code bug): `find_gpu_key` on the label `"X (GPU 0) (GPU 1)"`,
which is not a map key but is the literal name of a stored device,
propagates the `ValueError` raised by `parse_display_name` instead of
resolving the label to the matching key `"k1"` as the claimed resolution
order requires. -/
theorem c6_find_gpu_key_raises :
    find_gpu_key "X (GPU 0) (GPU 1)".toList [(['k', '1'], infoNamed)] = .error () := by
  decide

/-! ### Claim C7 -/

/-- C7: for a selected label resolving to an AMD device, `set_gpu_env`
sets `HIP_VISIBLE_DEVICES` to the decimal string of the selected index
minus the number of detected NVIDIA devices. -/
theorem c7_amd_env (m : GpuMap) (nvidia_gpus : List Str) (env : EnvMap)
    (label : Str) (idx : ℤ) (k : Str) (info : GPUInfo)
    (hfind : find_gpu_key label m = .ok (some k)) (hk : k ≠ [])
    (hlook : mapLookup m k = some info) (hv : info.gpu_type = .AMD) :
    set_gpu_env m nvidia_gpus env label idx =
      .ok (envSet env hipVar (intRepr (idx - (nvidia_gpus.length : ℤ)))) := by
  simp only [set_gpu_env, hfind, hlook, if_neg hk, hv]

/-- C7 witness: with 2 NVIDIA labels and 1 AMD device detected in that
order, selecting the AMD device at flattened index 2 yields
`HIP_VISIBLE_DEVICES = "0"`. -/
theorem c7_amd_env_witness :
    set_gpu_env [("Radeon".toList, infoAmd)] ["N0".toList, "N1".toList] []
      "Radeon".toList 2 = .ok [(hipVar, ['0'])] := by
  rw [c7_amd_env [("Radeon".toList, infoAmd)] ["N0".toList, "N1".toList] []
    "Radeon".toList 2 "Radeon".toList infoAmd (by decide) (by decide) (by decide) rfl]
  decide

/-! ### Claim C8 -/

/-- C8 (corrected claim): `get_gpu_index_from_pci` is a total function —
it returns `0` whenever the string has no `:` separator or the second
field fails to parse as hex, and the parsed field's value otherwise —
but the result is not always non-negative: an explicitly signed bus
field parses to a negative integer. -/
theorem c8_total (s : Str) :
    (containsChar s ':' = false → get_gpu_index_from_pci s = 0) ∧
    (∀ a b rest, splitChar ':' s = a :: b :: rest → pyIntHex b = none →
      get_gpu_index_from_pci s = 0) ∧
    (∀ a b rest v, splitChar ':' s = a :: b :: rest → pyIntHex b = some v →
      s ≠ [] → get_gpu_index_from_pci s = v) := by
  refine ⟨?_, ?_, ?_⟩
  · intro hcc
    rw [get_gpu_index_from_pci, if_neg]
    rintro ⟨-, hc⟩
    rw [hcc] at hc
    exact Bool.false_ne_true hc
  · intro a b rest hsplit hhex
    rw [get_gpu_index_from_pci]
    split
    · rw [hsplit]
      simp [hhex]
    · rfl
  · intro a b rest v hsplit hhex hne
    rw [get_gpu_index_from_pci]
    have hcc : containsChar s ':' = true := by
      by_contra hcc
      rw [Bool.not_eq_true] at hcc
      rw [splitChar_of_not_contains ':' s hcc] at hsplit
      simp at hsplit
    rw [if_pos ⟨hne, hcc⟩, hsplit]
    simp [hhex]

/-- C8 witness: the totality theorem applied to the well-formed bus id
`"00000000:01:00.0"`, whose second field parses to 1. -/
theorem c8_total_witness :
    get_gpu_index_from_pci "00000000:01:00.0".toList = 1 :=
  (c8_total "00000000:01:00.0".toList).2.2 "00000000".toList "01".toList
    ["00.0".toList] 1 (by decide) (by decide) (by decide)

/-- C8 counterexample: the bus id `"0000:-1:00.0"` makes the function
return `-1`, a negative value, contradicting the claimed non-negativity. -/
theorem c8_negative_counterexample :
    get_gpu_index_from_pci "0000:-1:00.0".toList = -1 ∧
    get_gpu_index_from_pci "0000:-1:00.0".toList < 0 := by
  constructor <;> decide

/-! ### Claim C9 -/

/-- C9 (corrected claim): every `check_gpu_ability` call whose label
resolves to a mapped device whose vendor is NVIDIA or AMD writes the
computed verdict onto that device as its cached ability before returning
it; the unsupported-vendor early return (like the not-found one) writes
nothing. -/
theorem c9_ability_written (m : GpuMap) (models : List Sakura)
    (label model_name : Str) (ctx np : Option ℕ) (calculate : Calc)
    (k : Str) (info : GPUInfo)
    (hfind : find_gpu_key label m = .ok (some k)) (hk : k ≠ [])
    (hlook : mapLookup m k = some info)
    (hv : info.gpu_type = .NVIDIA ∨ info.gpu_type = .AMD) :
    check_gpu_ability m models label model_name ctx np calculate =
      .ok (computed_ability models info model_name ctx np calculate,
        mapSet m k
          (withAbility info (computed_ability models info model_name ctx np calculate))) ∧
    mapLookup
        (mapSet m k
          (withAbility info (computed_ability models info model_name ctx np calculate))) k =
      some (withAbility info (computed_ability models info model_name ctx np calculate)) :=
  ⟨check_gpu_ability_resolved m models label model_name ctx np calculate k info
      hfind hk hlook hv,
    mapLookup_mapSet m k info _ hlook⟩

/-- C9 witness: the write-back theorem applied to a concrete resolved
NVIDIA device. -/
theorem c9_ability_written_witness :
    check_gpu_ability [(['d'], infoBoundary)] [model2] ['d'] ['M'] none none calcFail =
      .ok (computed_ability [model2] infoBoundary ['M'] none none calcFail,
        mapSet [(['d'], infoBoundary)] ['d']
          (withAbility infoBoundary
            (computed_ability [model2] infoBoundary ['M'] none none calcFail))) ∧
    mapLookup
        (mapSet [(['d'], infoBoundary)] ['d']
          (withAbility infoBoundary
            (computed_ability [model2] infoBoundary ['M'] none none calcFail))) ['d'] =
      some (withAbility infoBoundary
        (computed_ability [model2] infoBoundary ['M'] none none calcFail)) :=
  c9_ability_written [(['d'], infoBoundary)] [model2] ['d'] ['M'] none none calcFail
    ['d'] infoBoundary (by decide) (by decide) (by decide) (Or.inl rfl)

/-- C9 counterexample: the label `"g"` resolves to the mapped Intel
device, yet the unsupported-vendor verdict is returned with the map —
and so the device's cached ability — left untouched, contradicting the
claim that every resolving call overwrites the cache. -/
theorem c9_no_write_counterexample :
    check_gpu_ability [(['g'], infoIntel)] [model2] ['g'] ['M'] none none calcFail =
      .ok (⟨false, .unsupportedVendor⟩, [(['g'], infoIntel)]) ∧
    infoIntel.ability = none := by
  constructor <;> decide

/-! ### Claim C10 -/

/-- C10: `set_gpu_env` performs no lower-bound check on the AMD ordinal
subtraction — whenever the selected index is strictly below the NVIDIA
device count, it returns normally with `HIP_VISIBLE_DEVICES` set to a
negative decimal string (one starting with `'-'`). -/
theorem c10_amd_negative_ordinal (m : GpuMap) (nvidia_gpus : List Str)
    (env : EnvMap) (label : Str) (idx : ℤ) (k : Str) (info : GPUInfo)
    (hfind : find_gpu_key label m = .ok (some k)) (hk : k ≠ [])
    (hlook : mapLookup m k = some info) (hv : info.gpu_type = .AMD)
    (hidx : idx < (nvidia_gpus.length : ℤ)) :
    set_gpu_env m nvidia_gpus env label idx =
      .ok (envSet env hipVar (intRepr (idx - (nvidia_gpus.length : ℤ)))) ∧
    (intRepr (idx - (nvidia_gpus.length : ℤ))).head? = some '-' := by
  constructor
  · simp only [set_gpu_env, hfind, hlook, if_neg hk, hv]
  · rw [intRepr, if_pos (by omega)]
    rfl

/-- C10 witness: with 2 NVIDIA devices, selecting the AMD device at
index 1 yields `HIP_VISIBLE_DEVICES = "-1"` as a normal result. -/
theorem c10_amd_negative_ordinal_witness :
    set_gpu_env [("Radeon".toList, infoAmd)] ["N0".toList, "N1".toList] []
      "Radeon".toList 1 = .ok [(hipVar, ['-', '1'])] := by
  rw [(c10_amd_negative_ordinal [("Radeon".toList, infoAmd)]
    ["N0".toList, "N1".toList] [] "Radeon".toList 1 "Radeon".toList infoAmd
    (by decide) (by decide) (by decide) rfl (by decide)).1]
  decide

end Launcher
